import Mathlib

/-!
Verification of the toolfi mcp-server core against its specification.

The Python source under `src/mcp-server/src/` is shallowly embedded below:
pure functions become Lean functions, the stateful cache becomes explicit
state passing, Python `float` values are modelled as exact rationals (`ℚ`),
Python `int` as `ℤ`/`ℕ`, fallible code returns `Except`, and the upstream
HTTP responses are passed in as explicit parameters (so "before the upstream
request is made" becomes "independently of the upstream response value").
-/

namespace ToolFi

/-- Python `str.lower()`, character-wise lowering (the strings it is applied
to in this codebase are ASCII chain aliases, addresses and project names). -/
def py_lower (s : String) : String := ⟨s.data.map Char.toLower⟩

/-- Python `str.upper()`, character-wise. -/
def py_upper (s : String) : String := ⟨s.data.map Char.toUpper⟩

/-- Python `str.strip()`: drop leading and trailing whitespace. -/
def py_strip (s : String) : String :=
  ⟨((s.data.dropWhile Char.isWhitespace).reverse.dropWhile Char.isWhitespace).reverse⟩

/-! ## Chain registry (src/mcp-server/src/chains.py) -/

/-- The `GOPLUS_CHAINS` table from chains.py. -/
def GOPLUS_CHAINS : List (String × String) :=
  [("ethereum", "1"), ("eth", "1"), ("bsc", "56"), ("binance", "56"),
   ("polygon", "137"), ("matic", "137"), ("arbitrum", "42161"), ("arb", "42161"),
   ("base", "8453"), ("optimism", "10"), ("op", "10"), ("avalanche", "43114"),
   ("avax", "43114"), ("solana", "solana"), ("sol", "solana"), ("linea", "59144"),
   ("zksync", "324"), ("scroll", "534352"), ("blast", "81457"), ("mantle", "5000")]

/-- The `COINGECKO_PLATFORMS` table from chains.py. -/
def COINGECKO_PLATFORMS : List (String × String) :=
  [("ethereum", "ethereum"), ("eth", "ethereum"), ("bsc", "binance-smart-chain"),
   ("binance", "binance-smart-chain"), ("polygon", "polygon-pos"), ("matic", "polygon-pos"),
   ("arbitrum", "arbitrum-one"), ("arb", "arbitrum-one"), ("base", "base"),
   ("optimism", "optimistic-ethereum"), ("op", "optimistic-ethereum"),
   ("avalanche", "avalanche"), ("avax", "avalanche"), ("solana", "solana"), ("sol", "solana")]

/-- The `LIFI_CHAINS` table from chains.py (values are numeric chain ids). -/
def LIFI_CHAINS : List (String × ℕ) :=
  [("ethereum", 1), ("eth", 1), ("arbitrum", 42161), ("arb", 42161), ("base", 8453),
   ("polygon", 137), ("matic", 137), ("optimism", 10), ("op", 10), ("bsc", 56),
   ("binance", 56), ("avalanche", 43114), ("avax", 43114)]

/-- The `DEFILLAMA_CHAINS` table from chains.py. -/
def DEFILLAMA_CHAINS : List (String × String) :=
  [("ethereum", "Ethereum"), ("eth", "Ethereum"), ("bsc", "BSC"), ("binance", "BSC"),
   ("polygon", "Polygon"), ("matic", "Polygon"), ("arbitrum", "Arbitrum"), ("arb", "Arbitrum"),
   ("base", "Base"), ("optimism", "Optimism"), ("op", "Optimism"),
   ("avalanche", "Avalanche"), ("avax", "Avalanche"), ("solana", "Solana"), ("sol", "Solana")]

/-- The `get_goplus_chain_id` (chains.py): case-insensitive table lookup. -/
def get_goplus_chain_id (chain : String) : Option String :=
  GOPLUS_CHAINS.lookup (py_lower chain)

/-- The `get_coingecko_platform` (chains.py). -/
def get_coingecko_platform (chain : String) : Option String :=
  COINGECKO_PLATFORMS.lookup (py_lower chain)

/-- The `get_lifi_chain_id` (chains.py). -/
def get_lifi_chain_id (chain : String) : Option ℕ :=
  LIFI_CHAINS.lookup (py_lower chain)

/-- The `get_defillama_chain` (chains.py). -/
def get_defillama_chain (chain : String) : Option String :=
  DEFILLAMA_CHAINS.lookup (py_lower chain)

/-! ## Data model (src/mcp-server/src/models.py) -/

/-- The `RiskLevel` enum from models.py. -/
inductive RiskLevel
  | safe
  | low
  | medium
  | high
  | critical
deriving DecidableEq, Repr

/-- The `RiskLevel.value`: the string value of the Python enum member. -/
def RiskLevel.value : RiskLevel → String
  | .safe => "safe"
  | .low => "low"
  | .medium => "medium"
  | .high => "high"
  | .critical => "critical"

/-- A JSON-primitive value, used for opaque parameter/record payloads. -/
inductive JPrim
  | str (s : String)
  | num (q : ℚ)
  | bool (b : Bool)
  | null
deriving DecidableEq, Repr

/-- The `TokenSecurity` dataclass from models.py.  Python floats are modelled as
exact rationals; `dex_info` entries (opaque dicts) as key/primitive lists. -/
structure TokenSecurity where
  address : String
  chain : String
  name : Option String := none
  symbol : Option String := none
  is_honeypot : Bool := false
  buy_tax : ℚ := 0
  sell_tax : ℚ := 0
  is_mintable : Bool := false
  can_take_back_ownership : Bool := false
  owner_change_balance : Bool := false
  hidden_owner : Bool := false
  is_blacklisted : Bool := false
  transfer_pausable : Bool := false
  is_proxy : Bool := false
  is_open_source : Bool := true
  total_supply : Option String := none
  holder_count : Option ℤ := none
  lp_holder_count : Option ℤ := none
  dex_info : List (List (String × JPrim)) := []
  is_in_cex : Bool := false
  cex_list : List String := []
  risk_score : ℤ := 0
  risk_level : RiskLevel := .safe
  risk_factors : List String := []
deriving DecidableEq, Repr

/-- Renders a rational with one decimal place, as the Python format spec
`:.1f` does (ties of the binary floats are abstracted by rational rounding). -/
def formatPct1 (q : ℚ) : String :=
  let n : ℤ := round (q * 10)
  let sign := if n < 0 then "-" else ""
  sign ++ toString (n.natAbs / 10) ++ "." ++ toString (n.natAbs % 10)

/-- The buy-tax factor string appended by `calculate_risk`
(`f"⚠️ 买入税: {self.buy_tax * 100:.1f}%"`). -/
def buy_tax_factor (t : TokenSecurity) : String :=
  "⚠️ 买入税: " ++ formatPct1 (t.buy_tax * 100) ++ "%"

/-- The sell-tax factor string appended by `calculate_risk`
(`f"⚠️ 卖出税: {self.sell_tax * 100:.1f}%"`). -/
def sell_tax_factor (t : TokenSecurity) : String :=
  "⚠️ 卖出税: " ++ formatPct1 (t.sell_tax * 100) ++ "%"

/-- The sequential `score += …` accumulation of `TokenSecurity.calculate_risk`
(models.py lines 59-104), rendered as the ordered sum of its eleven addends.
Python's `int(...)` on the positive quantity `tax * 100` is truncation,
i.e. the floor. -/
def raw_score (t : TokenSecurity) : ℤ :=
    (if t.is_honeypot then 100 else 0)
  + (if t.buy_tax > 1/10 then min 30 ⌊t.buy_tax * 100⌋ else 0)
  + (if t.sell_tax > 1/10 then min 30 ⌊t.sell_tax * 100⌋ else 0)
  + (if t.is_mintable then 20 else 0)
  + (if t.can_take_back_ownership then 25 else 0)
  + (if t.owner_change_balance then 30 else 0)
  + (if t.hidden_owner then 15 else 0)
  + (if t.is_blacklisted then 10 else 0)
  + (if t.transfer_pausable then 15 else 0)
  + (if !t.is_open_source then 20 else 0)
  + (if t.is_proxy then 10 else 0)

/-- The sequential `factors.append(…)` accumulation of
`TokenSecurity.calculate_risk`, rendered as the ordered concatenation of its
eleven conditional entries. -/
def risk_factors_of (t : TokenSecurity) : List String :=
    (if t.is_honeypot then ["🚨 蜜罐合约 - 无法卖出!"] else [])
  ++ (if t.buy_tax > 1/10 then [buy_tax_factor t] else [])
  ++ (if t.sell_tax > 1/10 then [sell_tax_factor t] else [])
  ++ (if t.is_mintable then ["⚠️ 可增发"] else [])
  ++ (if t.can_take_back_ownership then ["🚨 可收回所有权"] else [])
  ++ (if t.owner_change_balance then ["🚨 Owner可修改余额"] else [])
  ++ (if t.hidden_owner then ["⚠️ 隐藏的Owner"] else [])
  ++ (if t.is_blacklisted then ["⚠️ 有黑名单功能"] else [])
  ++ (if t.transfer_pausable then ["⚠️ 可暂停转账"] else [])
  ++ (if !t.is_open_source then ["⚠️ 代码未开源"] else [])
  ++ (if t.is_proxy then ["ℹ️ 代理合约"] else [])

/-- The level thresholds of `calculate_risk` (models.py lines 109-118); note
that the source branches on the raw `score`, not on the clamped `risk_score`. -/
def risk_level_of (score : ℤ) : RiskLevel :=
  if score ≥ 80 then .critical
  else if score ≥ 50 then .high
  else if score ≥ 25 then .medium
  else if score > 0 then .low
  else .safe

/-- The `TokenSecurity.calculate_risk` (models.py lines 57-118): sets
`risk_score := min(100, score)`, `risk_factors := factors` and the level. -/
def calculate_risk (t : TokenSecurity) : TokenSecurity :=
  { t with
    risk_score := min 100 (raw_score t)
    risk_factors := risk_factors_of t
    risk_level := risk_level_of (raw_score t) }

/-- The `TokenPrice` dataclass from models.py. -/
structure TokenPrice where
  address : String
  chain : String
  price_usd : ℚ
  change_24h : Option ℚ := none
  market_cap : Option ℚ := none
  volume_24h : Option ℚ := none
  last_updated : Option String := none
deriving DecidableEq, Repr

/-- The `DefiPool` dataclass from models.py. -/
structure DefiPool where
  pool_id : String
  chain : String
  project : String
  symbol : String
  tvl_usd : ℚ
  apy : ℚ
  apy_base : Option ℚ := none
  apy_reward : Option ℚ := none
  reward_tokens : List String := []
  stablecoin : Bool := false
  il_risk : String := "unknown"
  underlying_tokens : List String := []
deriving DecidableEq, Repr

/-- The `BridgeQuote` dataclass from models.py; the opaque step dicts are
modelled as key/primitive lists. -/
structure BridgeQuote where
  from_chain : String
  to_chain : String
  from_token : String
  to_token : String
  from_amount : String
  to_amount : String
  to_amount_usd : Option ℚ := none
  gas_cost_usd : Option ℚ := none
  execution_time_seconds : Option ℤ := none
  bridge_name : String := ""
  steps : List (List (String × JPrim)) := []
deriving DecidableEq, Repr

/-! ## Error taxonomy (src/mcp-server/src/clients/base.py and the clients)

Python raises exceptions; the embedding returns `Except`.  `ApiFailure`
mirrors the three raise sites in `BaseClient.get`; `ClientError` mirrors the
exceptions a provider-client operation can raise (`ValueError` for an
unsupported chain, `APIError` raised in client code, or a propagated
`BaseClient.get` failure). -/

/-- The three failure modes of `BaseClient.get` (base.py lines 117-143). -/
inductive ApiFailure
  | rateLimited
  | timeout
  | httpStatus (status : ℕ)
deriving DecidableEq, Repr

/-- The exception message at each raise site of `BaseClient.get`. -/
def failure_message : ApiFailure → String
  | .rateLimited => "Rate limit exceeded"
  | .timeout => "Request timeout"
  | .httpStatus status => "HTTP error: " ++ toString status

/-- Exceptions a provider-client operation can raise. -/
inductive ClientError
  | unsupported (msg : String)
  | api (msg : String)
  | http (f : ApiFailure)
deriving DecidableEq, Repr

/-! ## Cache (src/mcp-server/src/clients/base.py, `SimpleCache`)

The Python dict `_cache : Dict[str, CacheEntry]` is modelled as a finite-
support function `String → Option (CacheEntry α)`; `time.time()` becomes an
explicit `now : ℚ` argument at each call. -/

/-- The `CacheEntry` (base.py lines 14-18): `expires_at = time.time() + ttl`. -/
structure CacheEntry (α : Type) where
  data : α
  expires_at : ℚ
deriving DecidableEq, Repr

/-- The `_cache` mapping of `SimpleCache`. -/
def Cache (α : Type) : Type := String → Option (CacheEntry α)

/-- The empty cache (`SimpleCache.__init__` / `clear`). -/
def cache_empty (α : Type) : Cache α := fun _ => none

/-- The `SimpleCache.set` (base.py lines 36-38): unconditional overwrite, with
`expires_at := now + ttl_seconds`. -/
def cache_set {α : Type} (c : Cache α) (key : String) (data : α) (ttl_seconds now : ℚ) :
    Cache α :=
  fun k => if k = key then some ⟨data, now + ttl_seconds⟩ else c k

/-- The `SimpleCache.get` (base.py lines 27-34): a live entry is returned; an
expired entry (`now >= expires_at`) is deleted and `None` is returned.
Returns the read value together with the cache state after the call. -/
def cache_get {α : Type} (c : Cache α) (key : String) (now : ℚ) :
    Option α × Cache α :=
  match c key with
  | some entry =>
      if now < entry.expires_at then (some entry.data, c)
      else (none, fun k => if k = key then none else c k)
  | none => (none, c)

/-! ## Cache keys (`SimpleCache.make_key`, base.py lines 44-47)

`make_key` serializes `{"args": args, "kwargs": kwargs}` with
`json.dumps(..., sort_keys=True)` and hashes the result with md5.  At its
only call site (`BaseClient.get`, line 110) `args = (url, params)` and
`kwargs = {}`, so the embedding takes those two arguments.  The md5 digest
is an arbitrary deterministic function of the serialized string, so it is a
parameter `digest` here (every theorem about `make_key` is proved for every
`digest`, hence in particular for md5). -/

/-- One rendered JSON primitive, as `json.dumps` renders scalars. -/
def dump_jprim : JPrim → String
  | .str s => "\"" ++ s ++ "\""
  | .num q => toString q
  | .bool true => "true"
  | .bool false => "false"
  | .null => "null"

/-- Key order used by `sort_keys=True`. -/
def key_le {V : Type} (a b : String × V) : Prop := a.1 ≤ b.1

instance {V : Type} : DecidableRel (key_le (V := V)) :=
  fun a b => inferInstanceAs (Decidable (a.1 ≤ b.1))

/-- Strict key order (used only in proofs about `sort_keys=True`). -/
def key_lt {V : Type} (a b : String × V) : Prop := a.1 < b.1

instance {V : Type} : IsTotal (String × V) key_le := ⟨fun a b => le_total a.1 b.1⟩

instance {V : Type} : IsTrans (String × V) key_le :=
  ⟨fun _ _ _ h1 h2 => le_trans h1 h2⟩

instance {V : Type} : IsAntisymm (String × V) key_lt :=
  ⟨fun a _ h1 h2 => absurd (lt_trans h1 h2) (lt_irrefl a.1)⟩

/-- The key-sorting pass of `json.dumps(..., sort_keys=True)` over one
parameter mapping (a stable sort by key). -/
def sort_params (l : List (String × JPrim)) : List (String × JPrim) :=
  l.insertionSort key_le

/-- The `json.dumps` of the params dict with sorted keys (`None` params render
as JSON `null`). -/
def dump_params : Option (List (String × JPrim)) → String
  | none => "null"
  | some l =>
      "\x7b" ++
      String.intercalate ", "
        ((sort_params l).map (fun kv => "\"" ++ kv.1 ++ "\": " ++ dump_jprim kv.2)) ++
      "\x7d"

/-- The serialized form `json.dumps({"args": (url, params), "kwargs": {}},
sort_keys=True)` built by `make_key`. -/
def make_key_payload (url : String) (params : Option (List (String × JPrim))) : String :=
  "\x7b\"args\": [\"" ++ url ++ "\", " ++ dump_params params ++ "], \"kwargs\": \x7b\x7d\x7d"

/-- The `SimpleCache.make_key`: digest of the sorted-key serialization. -/
def make_key (digest : String → String) (url : String)
    (params : Option (List (String × JPrim))) : String :=
  digest (make_key_payload url params)

/-! ## HTTP client base (src/mcp-server/src/clients/base.py, `BaseClient.get`)

The network interaction is the explicit `FetchOutcome` argument: either the
upstream produced a response (status and parsed JSON body) or the configured
timeout elapsed.  `raise_for_status` raises for every non-2xx status (the
429 branch runs first), and a parsed body of a 2xx response is cached before
being returned when `use_cache` is set. -/

/-- What the single `client.get(url, params)` call produced. -/
inductive FetchOutcome (β : Type)
  | response (status : ℕ) (body : β)
  | timeout
deriving DecidableEq, Repr

/-- The `BaseClient.get` (base.py lines 99-143).  Returns the JSON body and the
cache state after the call. -/
def base_get {β : Type} (digest : String → String) (c : Cache β) (now : ℚ)
    (cache_ttl : ℚ) (url : String) (params : Option (List (String × JPrim)))
    (use_cache : Bool) (outcome : FetchOutcome β) :
    Except ApiFailure (β × Cache β) :=
  let key := make_key digest url params
  let looked := if use_cache then cache_get c key now else (none, c)
  match looked.1 with
  | some cached => .ok (cached, looked.2)
  | none =>
      match outcome with
      | .timeout => .error .timeout
      | .response status body =>
          if status = 429 then .error .rateLimited
          else if 200 ≤ status ∧ status ≤ 299 then
            let c2 := if use_cache then cache_set looked.2 key body cache_ttl now
                      else looked.2
            .ok (body, c2)
          else .error (.httpStatus status)

/-! ## GoPlus client (src/mcp-server/src/clients/goplus.py)

`check_token_security` resolves the chain, normalizes the address, performs
one GET (its parsed JSON response is the explicit `GoPlusResponse`
argument), checks the provider's `code`, extracts the per-address record and
builds a `TokenSecurity` with `calculate_risk` applied.  Numeric response
strings (`buy_tax`, `sell_tax`, holder counts) are modelled as the numbers
they denote, with `none` for the falsy values that `x or 0` maps to zero. -/

/-- One entry of the GoPlus `result` mapping (the raw token dict). -/
structure GoPlusTokenData where
  token_name : Option String := none
  token_symbol : Option String := none
  is_honeypot : Option String := none
  buy_tax : Option ℚ := none
  sell_tax : Option ℚ := none
  is_mintable : Option String := none
  can_take_back_ownership : Option String := none
  owner_change_balance : Option String := none
  hidden_owner : Option String := none
  is_blacklisted : Option String := none
  transfer_pausable : Option String := none
  is_proxy : Option String := none
  is_open_source : Option String := none
  total_supply : Option String := none
  holder_count : Option ℤ := none
  lp_holder_count : Option ℤ := none
  dex : List (List (String × JPrim)) := []
  cex_listed : Option String := none
  cex_list : List String := []
deriving DecidableEq, Repr

/-- The parsed JSON body returned by the GoPlus `token_security` endpoint. -/
structure GoPlusResponse where
  code : Option ℤ := none
  message : Option String := none
  result : List (String × GoPlusTokenData) := []
deriving DecidableEq, Repr

/-- Python `f"{x}"` of an `Optional[str]`: `None` renders as `"None"`. -/
def opt_str (o : Option String) : String := o.getD "None"

/-- The `GoPlusClient.check_token_security` (goplus.py lines 61-135).  A present
 but empty per-address record is treated as found (the Python code would
treat an empty dict as missing; no claim depends on that truthiness edge). -/
def check_token_security (chain contract_address : String)
    (upstream : GoPlusResponse) : Except ClientError TokenSecurity :=
  match get_goplus_chain_id chain with
  | none => .error (.unsupported ("Unsupported chain: " ++ chain ++
      ". Supported: ethereum, bsc, base, arbitrum, polygon, solana, etc."))
  | some _chain_id =>
      let address := py_strip (py_lower contract_address)
      if upstream.code ≠ some 1 then
        .error (.api ("GoPlus API error: " ++ opt_str upstream.message))
      else
        match upstream.result.lookup address with
        | none => .error (.api ("Token not found: " ++ address ++ " on " ++ chain))
        | some td =>
            .ok (calculate_risk
              { address := address
                chain := chain
                name := td.token_name
                symbol := td.token_symbol
                is_honeypot := td.is_honeypot == some "1"
                buy_tax := td.buy_tax.getD 0
                sell_tax := td.sell_tax.getD 0
                is_mintable := td.is_mintable == some "1"
                can_take_back_ownership := td.can_take_back_ownership == some "1"
                owner_change_balance := td.owner_change_balance == some "1"
                hidden_owner := td.hidden_owner == some "1"
                is_blacklisted := td.is_blacklisted == some "1"
                transfer_pausable := td.transfer_pausable == some "1"
                is_proxy := td.is_proxy == some "1"
                is_open_source := td.is_open_source == some "1"
                total_supply := td.total_supply
                holder_count := some (td.holder_count.getD 0)
                lp_holder_count := some (td.lp_holder_count.getD 0)
                dex_info := td.dex
                is_in_cex := td.cex_listed == some "1"
                cex_list := td.cex_list })

/-! ## CoinGecko client (src/mcp-server/src/clients/coingecko.py) -/

/-- One per-address entry of the CoinGecko `simple/token_price` response. -/
structure CGPriceData where
  usd : Option ℚ := none
  usd_24h_change : Option ℚ := none
  usd_market_cap : Option ℚ := none
  usd_24h_vol : Option ℚ := none
deriving DecidableEq, Repr

/-- The `CoinGeckoClient.get_token_price` (coingecko.py lines 55-118).  The
`include_*` flags only shape the request parameters, which the explicit
`upstream` argument supersedes here. -/
def get_token_price (chain contract_address : String)
    (upstream : List (String × CGPriceData)) : Except ClientError TokenPrice :=
  match get_coingecko_platform chain with
  | none => .error (.unsupported ("Unsupported chain: " ++ chain ++
      ". Supported: ethereum, bsc, base, arbitrum, polygon, solana, etc."))
  | some _platform =>
      let address := py_strip (py_lower contract_address)
      if upstream = [] then
        .error (.api ("Token not found: " ++ address ++ " on " ++ chain))
      else
        match upstream.lookup address with
        | none => .error (.api ("Token not found: " ++ address ++ " on " ++ chain))
        | some td =>
            .ok { address := address
                  chain := chain
                  price_usd := td.usd.getD 0
                  change_24h := td.usd_24h_change
                  market_cap := td.usd_market_cap
                  volume_24h := td.usd_24h_vol }

/-! ## DefiLlama client (src/mcp-server/src/clients/defillama.py)

`get_pools` first fetches every pool (`get_all_pools`; the parsed list is
the explicit `all_pools` argument), then runs one linear pass that filters,
converts and early-terminates at `limit`, and finally sorts the retained
subset by APY descending (a stable descending sort, as CPython's
`list.sort(key=..., reverse=True)` is). -/

/-- One raw pool dict of the DefiLlama `/pools` response; `none` stands for
an absent key or a JSON `null`. -/
structure RawPool where
  pool : Option String := none
  chain : Option String := none
  project : Option String := none
  symbol : Option String := none
  tvlUsd : Option ℚ := none
  apy : Option ℚ := none
  apyBase : Option ℚ := none
  apyReward : Option ℚ := none
  rewardTokens : Option (List String) := none
  stablecoin : Option Bool := none
  ilRisk : Option String := none
  underlyingTokens : Option (List String) := none
  exposure : Option String := none
deriving DecidableEq, Repr

/-- The `pool.get("tvlUsd", 0) or 0` (defillama.py line 107). -/
def pool_tvl (p : RawPool) : ℚ := p.tvlUsd.getD 0

/-- The `pool.get("apy", 0) or 0` (defillama.py line 112). -/
def pool_apy (p : RawPool) : ℚ := p.apy.getD 0

/-- The arguments of `DefiLlamaClient.get_pools`, with the Python defaults. -/
structure PoolsArgs where
  chain : Option String := none
  project : Option String := none
  min_tvl : ℚ := 0
  min_apy : ℚ := 0
  max_apy : ℚ := 10000
  stablecoin_only : Bool := false
  single_exposure : Bool := false
  limit : ℕ := 50
deriving DecidableEq, Repr

/-- The per-pool `continue` guards of the `get_pools` loop (defillama.py
lines 98-121), as one conjunction.  `chain_filter` is the already-resolved
DefiLlama chain name; an empty `project` string is falsy in Python and thus
applies no filter. -/
def pool_matches (chain_filter : Option String) (project : Option String)
    (min_tvl min_apy max_apy : ℚ) (stablecoin_only single_exposure : Bool)
    (p : RawPool) : Bool :=
  (match chain_filter with
   | some cf => p.chain == some cf
   | none => true)
  && (match project with
      | some pr => if pr = "" then true
          else py_lower (p.project.getD "") == py_lower pr
      | none => true)
  && decide (pool_tvl p ≥ min_tvl)
  && (decide (pool_apy p ≥ min_apy) && decide (pool_apy p ≤ max_apy))
  && (!stablecoin_only || p.stablecoin.getD false)
  && (!single_exposure || p.exposure == some "single")

/-- The `DefiPool(...)` construction in the loop (defillama.py lines 124-137). -/
def to_defi_pool (p : RawPool) : DefiPool :=
  { pool_id := p.pool.getD ""
    chain := p.chain.getD ""
    project := p.project.getD ""
    symbol := p.symbol.getD ""
    tvl_usd := pool_tvl p
    apy := pool_apy p
    apy_base := p.apyBase
    apy_reward := p.apyReward
    reward_tokens := p.rewardTokens.getD []
    stablecoin := p.stablecoin.getD false
    il_risk := p.ilRisk.getD "unknown"
    underlying_tokens := p.underlyingTokens.getD [] }

/-- The accumulation loop of `get_pools`: append each matching pool and
`break` as soon as `len(result) >= limit` (defillama.py lines 96-140). -/
def get_pools_loop (keep : RawPool → Bool) (limit : ℕ) :
    List RawPool → List DefiPool → List DefiPool
  | [], acc => acc
  | p :: ps, acc =>
      if keep p then
        let acc2 := acc ++ [to_defi_pool p]
        if limit ≤ acc2.length then acc2 else get_pools_loop keep limit ps acc2
      else get_pools_loop keep limit ps acc

/-- The descending-APY comparison of `result.sort(key=lambda x: x.apy,
reverse=True)`. -/
def apy_desc (a b : DefiPool) : Prop := b.apy ≤ a.apy

instance : DecidableRel apy_desc :=
  fun a b => inferInstanceAs (Decidable (b.apy ≤ a.apy))

instance : IsTotal DefiPool apy_desc := ⟨fun a b => le_total b.apy a.apy⟩

instance : IsTrans DefiPool apy_desc :=
  ⟨fun _ _ _ h1 h2 => le_trans h2 h1⟩

/-- The final `result.sort(key=lambda x: x.apy, reverse=True)` (defillama.py
line 143): stable descending sort by APY. -/
def sort_by_apy_desc (l : List DefiPool) : List DefiPool :=
  l.insertionSort apy_desc

/-- The resolved chain filter `get_defillama_chain(chain) if chain else None`
(defillama.py line 94); an empty alias string is falsy. -/
def resolved_chain_filter (chain : Option String) : Option String :=
  match chain with
  | some c => if c = "" then none else get_defillama_chain c
  | none => none

/-- The filter the `get_pools` loop applies, given the call arguments. -/
def get_pools_filter (a : PoolsArgs) : RawPool → Bool :=
  pool_matches (resolved_chain_filter a.chain) a.project a.min_tvl a.min_apy
    a.max_apy a.stablecoin_only a.single_exposure

/-- The `DefiLlamaClient.get_pools` (defillama.py lines 55-145), given the
parsed `/pools` payload `all_pools`. -/
def get_pools (a : PoolsArgs) (all_pools : List RawPool) : List DefiPool :=
  sort_by_apy_desc (get_pools_loop (get_pools_filter a) a.limit all_pools [])

/-! ## Li.Fi client (src/mcp-server/src/clients/lifi.py) -/

/-- The `LiFiClient.NATIVE_TOKEN`. -/
def NATIVE_TOKEN : String := "0x0000000000000000000000000000000000000000"

/-- The `LiFiClient.USDC_ADDRESSES`. -/
def USDC_ADDRESSES : List (ℕ × String) :=
  [(1, "0xA0b86991c6218b36c1d19D4a2e9Eb0cE3606eB48"),
   (42161, "0xaf88d065e77c8cC2239327C5EDb3A432268e5831"),
   (8453, "0x833589fCD6eDb6E08f4c7C32D4f71b54bdA02913"),
   (137, "0x3c499c542cef5e3811e1192ce70d8cc03d5c3359"),
   (10, "0x0b2C639c533813f4Aa9D7837CAf62653d097Ff85")]

/-- The `LiFiClient._resolve_token` (lifi.py lines 173-189). -/
def resolve_token (token : String) (chain_id : ℕ) : String :=
  let token_upper := py_upper token
  if token_upper = "ETH" ∨ token_upper = "NATIVE" ∨ token_upper = "MATIC" ∨
      token_upper = "BNB" ∨ token_upper = "AVAX" then NATIVE_TOKEN
  else if token_upper = "USDC" then (USDC_ADDRESSES.lookup chain_id).getD token
  else if token.startsWith "0x" ∧ token.length = 42 then py_lower token
  else token

/-- One entry of `estimate["gasCosts"]`. -/
structure LiFiGasCost where
  amountUSD : Option ℚ := none
deriving DecidableEq, Repr

/-- The `estimate` object of a Li.Fi quote response. -/
structure LiFiEstimate where
  fromAmount : Option String := none
  toAmount : Option String := none
  toAmountUSD : Option ℚ := none
  executionDuration : Option ℤ := none
  gasCosts : List LiFiGasCost := []
deriving DecidableEq, Repr

/-- The parsed JSON body of the Li.Fi `/quote` endpoint.  `error_key` is
`some v` when the `"error"` key is present (its value rendered as text). -/
structure LiFiQuoteResponse where
  error_key : Option String := none
  message : Option String := none
  estimate : Option LiFiEstimate := none
  tool : Option String := none
  includedSteps : List (List (String × JPrim)) := []
deriving DecidableEq, Repr

/-- The `sum(float(g.get("amountUSD", 0)) for g in gas_costs)`. -/
def total_gas_usd (costs : List LiFiGasCost) : ℚ :=
  (costs.map (fun g => g.amountUSD.getD 0)).sum

/-- The `LiFiClient.get_quote` (lifi.py lines 84-171), given the parsed `/quote`
payload.  The `slippage` argument only shapes the outgoing request, which
the explicit `upstream` argument supersedes.  Python's
`float(x) if estimate.get("toAmountUSD") else None` keeps the optional
value, which the `Option` field already expresses. -/
def get_quote (from_chain to_chain from_token to_token amount from_address : String)
    (upstream : LiFiQuoteResponse) : Except ClientError BridgeQuote :=
  match get_lifi_chain_id from_chain with
  | none => .error (.unsupported ("Unsupported source chain: " ++ from_chain))
  | some from_chain_id =>
  match get_lifi_chain_id to_chain with
  | none => .error (.unsupported ("Unsupported destination chain: " ++ to_chain))
  | some to_chain_id =>
      let from_token_addr := resolve_token from_token from_chain_id
      let to_token_addr := resolve_token to_token to_chain_id
      let _ := from_address
      if upstream.error_key.isSome then
        .error (.api ("Li.Fi error: " ++
          opt_str (upstream.message <|> upstream.error_key)))
      else
        let estimate := upstream.estimate.getD {}
        let gas := total_gas_usd estimate.gasCosts
        .ok { from_chain := from_chain
              to_chain := to_chain
              from_token := from_token_addr
              to_token := to_token_addr
              from_amount := estimate.fromAmount.getD amount
              to_amount := estimate.toAmount.getD "0"
              to_amount_usd := estimate.toAmountUSD
              gas_cost_usd := if gas > 0 then some gas else none
              execution_time_seconds := estimate.executionDuration
              bridge_name := upstream.tool.getD ""
              steps := upstream.includedSteps }

/-! ## Tool façade (src/mcp-server/src/server.py, `token_security`)

The tool catches `ValueError` (returning `{"error": str(e)}`) and every
other exception (returning `{"error": f"API error: {e}"}`); a success is
serialized into the fixed response document.  The embedding returns the
document or the error message as a sum, so "no exception crosses the tool
boundary" is the totality of this function. -/

/-- The JSON document `token_security` returns on success (server.py lines
60-92). -/
structure SecurityDoc where
  token_name : Option String
  token_symbol : Option String
  token_address : String
  token_chain : String
  risk_level : String
  risk_score : ℤ
  risk_factors : List String
  is_honeypot : Bool
  buy_tax : String
  sell_tax : String
  is_mintable : Bool
  can_take_back_ownership : Bool
  owner_change_balance : Bool
  hidden_owner : Bool
  is_blacklisted : Bool
  transfer_pausable : Bool
  is_open_source : Bool
  is_proxy : Bool
  holder_count : Option ℤ
  lp_holder_count : Option ℤ
  is_in_cex : Bool
  cex_list : List String
  dex_count : ℕ
deriving DecidableEq, Repr

/-- A tool call result: either the success document or the `error`-field
document carrying only a message. -/
inductive ToolResult (δ : Type)
  | ok (doc : δ)
  | err (msg : String)
deriving DecidableEq, Repr

/-- The message the `token_security` handlers put into the `error` field:
`str(e)` for `ValueError`, `f"API error: {e}"` for everything else. -/
def tool_error_message : ClientError → String
  | .unsupported msg => msg
  | .api msg => "API error: " ++ msg
  | .http f => "API error: " ++ failure_message f

/-- The success-document construction of `token_security` (server.py lines
60-94). -/
def security_doc (r : TokenSecurity) : SecurityDoc :=
  { token_name := r.name
    token_symbol := r.symbol
    token_address := r.address
    token_chain := r.chain
    risk_level := r.risk_level.value
    risk_score := r.risk_score
    risk_factors := r.risk_factors
    is_honeypot := r.is_honeypot
    buy_tax := formatPct1 (r.buy_tax * 100) ++ "%"
    sell_tax := formatPct1 (r.sell_tax * 100) ++ "%"
    is_mintable := r.is_mintable
    can_take_back_ownership := r.can_take_back_ownership
    owner_change_balance := r.owner_change_balance
    hidden_owner := r.hidden_owner
    is_blacklisted := r.is_blacklisted
    transfer_pausable := r.transfer_pausable
    is_open_source := r.is_open_source
    is_proxy := r.is_proxy
    holder_count := r.holder_count
    lp_holder_count := r.lp_holder_count
    is_in_cex := r.is_in_cex
    cex_list := r.cex_list
    dex_count := r.dex_info.length }

/-- The `token_security` tool (server.py lines 37-99). -/
def token_security_tool (chain address : String) (upstream : GoPlusResponse) :
    ToolResult SecurityDoc :=
  match check_token_security chain address upstream with
  | .ok r => .ok (security_doc r)
  | .error e => .err (tool_error_message e)

/-! ## The remaining tool handlers (src/mcp-server/src/server.py)

Each of the six other tools wraps one client call in the same try/except
shape.  `token_price` and `bridge_quote` use the two-clause handler
(`ValueError` verbatim, every other exception prefixed "API error: ");
`crypto_price`, `defi_yields`, `supported_chains` and `trending_coins` use a
single catch-all returning `str(e)` verbatim (`plain_error_message`).  For
client operations whose only failure source is the HTTP layer, the tool
takes the fetch outcome `Except ApiFailure …` of that one GET explicitly. -/

/-- Python `str(e)` of any caught exception, as the single-clause handlers
(`crypto_price`, `defi_yields`, `supported_chains`, `trending_coins`)
put it into the `error` field. -/
def plain_error_message : ClientError → String
  | .unsupported msg => msg
  | .api msg => msg
  | .http f => failure_message f

/-- Python `f"{x:.2f}"` over exact rationals (ties of the binary floats
abstracted by rational rounding, as in `formatPct1`). -/
def format_2f (q : ℚ) : String :=
  let n : ℤ := round (q * 100)
  (if n < 0 then "-" else "") ++ toString (n.natAbs / 100) ++ "." ++
    (if n.natAbs % 100 < 10 then "0" else "") ++ toString (n.natAbs % 100)

/-- Groups a digit list (least significant first) into threes. -/
def chunk3 : List Char → List (List Char)
  | a :: b :: c :: rest => [a, b, c] :: chunk3 rest
  | l => [l]

/-- Comma-groups the decimal digits of a natural number. -/
def format_thousands (n : ℕ) : String :=
  ⟨(List.intersperse [','] (chunk3 (toString n).data.reverse)).flatten.reverse⟩

/-- Python `f"{x:,.0f}"` over exact rationals. -/
def format_usd0 (q : ℚ) : String :=
  let n : ℤ := round q
  (if n < 0 then "-" else "") ++ format_thousands n.natAbs

/-- The JSON document `token_price` returns on success (server.py lines
131-143); `change_24h` and `market_cap_usd` follow Python truthiness
(absent for `None` and for zero). -/
structure PriceDoc where
  token_address : String
  token_chain : String
  price_usd : ℚ
  change_24h : Option String
  market_cap_usd : Option ℚ
deriving DecidableEq, Repr

/-- The success-document construction of `token_price`. -/
def price_doc (include_market_cap : Bool) (r : TokenPrice) : PriceDoc :=
  { token_address := r.address
    token_chain := r.chain
    price_usd := r.price_usd
    change_24h :=
      match r.change_24h with
      | some v => if v ≠ 0 then some (format_2f v ++ "%") else none
      | none => none
    market_cap_usd :=
      if include_market_cap then
        match r.market_cap with
        | some v => if v ≠ 0 then some v else none
        | none => none
      else none }

/-- The `token_price` tool (server.py lines 104-150). -/
def token_price_tool (chain address : String) (include_market_cap : Bool)
    (upstream : List (String × CGPriceData)) : ToolResult PriceDoc :=
  match get_token_price chain address upstream with
  | .ok r => .ok (price_doc include_market_cap r)
  | .error e => .err (tool_error_message e)

/-- One per-coin entry of the CoinGecko `/simple/price` response. -/
structure CGSimplePrice where
  usd : Option ℚ := none
  usd_24h_change : Option ℚ := none
deriving DecidableEq, Repr

/-- `CoinGeckoClient.get_price_by_id` (coingecko.py lines 120-149): one GET
whose parsed body is keyed by coin id; `none` models the empty-dict default
of `data.get(coin_id, {})`.  The HTTP-layer outcome is the `Except`
argument. -/
def get_price_by_id (coin_id : String)
    (upstream : Except ApiFailure (List (String × CGSimplePrice))) :
    Except ClientError (Option CGSimplePrice) :=
  match upstream with
  | .error f => .error (.http f)
  | .ok data => .ok (data.lookup coin_id)

/-- The JSON document `crypto_price` returns on success (server.py lines
172-176). -/
structure CoinPriceDoc where
  coin : String
  price_usd : Option ℚ
  change_24h : String
deriving DecidableEq, Repr

/-- The `crypto_price` tool (server.py lines 153-179): a falsy per-coin
record maps to the "Coin not found" error document; exceptions are caught
by a single clause returning `str(e)`. -/
def crypto_price_tool (coin : String)
    (upstream : Except ApiFailure (List (String × CGSimplePrice))) :
    ToolResult CoinPriceDoc :=
  match get_price_by_id coin upstream with
  | .error e => .err (plain_error_message e)
  | .ok none => .err ("Coin not found: " ++ coin)
  | .ok (some r) =>
      .ok { coin := coin
            price_usd := r.usd
            change_24h := format_2f (r.usd_24h_change.getD 0) ++ "%" }

/-- One per-pool entry of the `defi_yields` response document (server.py
lines 228-239); `apy_base`/`apy_reward` follow Python truthiness. -/
structure PoolDoc where
  pool_id : String
  chain : String
  project : String
  symbol : String
  tvl_usd : String
  apy : String
  apy_base : Option String
  apy_reward : Option String
  stablecoin : Bool
  il_risk : String
deriving DecidableEq, Repr

/-- The per-pool document construction of `defi_yields`. -/
def pool_doc (p : DefiPool) : PoolDoc :=
  { pool_id := p.pool_id
    chain := p.chain
    project := p.project
    symbol := p.symbol
    tvl_usd := "$" ++ format_usd0 p.tvl_usd
    apy := format_2f p.apy ++ "%"
    apy_base :=
      match p.apy_base with
      | some v => if v ≠ 0 then some (format_2f v ++ "%") else none
      | none => none
    apy_reward :=
      match p.apy_reward with
      | some v => if v ≠ 0 then some (format_2f v ++ "%") else none
      | none => none
    stablecoin := p.stablecoin
    il_risk := p.il_risk }

/-- The JSON document `defi_yields` returns on success (server.py lines
241-244). -/
structure YieldsDoc where
  count : ℕ
  pools : List PoolDoc
deriving DecidableEq, Repr

/-- The `defi_yields` tool (server.py lines 184-247): the tool exposes no
`single_exposure` parameter (the client default `False` applies), and its
own defaults are `min_tvl=100000, min_apy=1, max_apy=100, limit=20`.  The
`Except` argument is the outcome of the `/pools` GET inside
`get_all_pools`, the only failure source of this call. -/
def defi_yields_tool (chain project : Option String)
    (min_tvl min_apy max_apy : ℚ) (stablecoin_only : Bool) (limit : ℕ)
    (upstream : Except ApiFailure (List RawPool)) : ToolResult YieldsDoc :=
  match upstream with
  | .error f => .err (failure_message f)
  | .ok all_pools =>
      let pools := get_pools
        { chain := chain, project := project, min_tvl := min_tvl,
          min_apy := min_apy, max_apy := max_apy,
          stablecoin_only := stablecoin_only, single_exposure := false,
          limit := limit } all_pools
      let result := pools.map pool_doc
      .ok { count := result.length, pools := result }

/-- The JSON document `bridge_quote` returns on success (server.py lines
289-308); the two optional dollar amounts follow Python truthiness. -/
structure BridgeDoc where
  route_from_chain : String
  route_to_chain : String
  route_from_token : String
  route_to_token : String
  from_amount : String
  to_amount : String
  to_amount_usd : Option String
  gas_usd : Option String
  time_seconds : Option ℤ
  bridge : String
deriving DecidableEq, Repr

/-- The success-document construction of `bridge_quote`. -/
def bridge_doc (q : BridgeQuote) : BridgeDoc :=
  { route_from_chain := q.from_chain
    route_to_chain := q.to_chain
    route_from_token := q.from_token
    route_to_token := q.to_token
    from_amount := q.from_amount
    to_amount := q.to_amount
    to_amount_usd :=
      match q.to_amount_usd with
      | some v => if v ≠ 0 then some ("$" ++ format_2f v) else none
      | none => none
    gas_usd :=
      match q.gas_cost_usd with
      | some v => if v ≠ 0 then some ("$" ++ format_2f v) else none
      | none => none
    time_seconds := q.execution_time_seconds
    bridge := q.bridge_name }

/-- The `bridge_quote` tool (server.py lines 252-313). -/
def bridge_quote_tool (from_chain to_chain from_token to_token amount
    from_address : String) (upstream : LiFiQuoteResponse) :
    ToolResult BridgeDoc :=
  match get_quote from_chain to_chain from_token to_token amount from_address
      upstream with
  | .ok q => .ok (bridge_doc q)
  | .error e => .err (tool_error_message e)

/-- One entry of the GoPlus `supported_chains` result list. -/
structure GoPlusChain where
  name : String := ""
  id : String := ""
deriving DecidableEq, Repr

/-- The parsed JSON body of the GoPlus `supported_chains` endpoint. -/
structure GoPlusChainsResponse where
  code : Option ℤ := none
  message : Option String := none
  result : List GoPlusChain := []
deriving DecidableEq, Repr

/-- `GoPlusClient.get_supported_chains` (goplus.py lines 49-59): the HTTP
outcome is the `Except` argument; a provider `code` other than 1 raises the
provider-error `APIError`. -/
def get_supported_chains
    (upstream : Except ApiFailure GoPlusChainsResponse) :
    Except ClientError (List GoPlusChain) :=
  match upstream with
  | .error f => .error (.http f)
  | .ok data =>
      if data.code ≠ some 1 then
        .error (.api ("GoPlus API error: " ++ opt_str data.message))
      else .ok data.result

/-- The JSON document `supported_chains` returns on success (server.py
lines 329-334). -/
structure ChainsDoc where
  goplus : List String
  coingecko : List String
  defillama : List String
  lifi : List String
deriving DecidableEq, Repr

/-- The `supported_chains` tool (server.py lines 318-337). -/
def supported_chains_tool
    (upstream : Except ApiFailure GoPlusChainsResponse) :
    ToolResult ChainsDoc :=
  match get_supported_chains upstream with
  | .error e => .err (plain_error_message e)
  | .ok goplus_chains =>
      .ok { goplus := goplus_chains.map (fun c => c.name)
            coingecko := ["ethereum", "bsc", "polygon", "arbitrum", "base",
              "optimism", "avalanche", "solana"]
            defillama := ["Ethereum", "BSC", "Polygon", "Arbitrum", "Base",
              "Optimism", "Avalanche", "Solana"]
            lifi := ["ethereum", "arbitrum", "base", "polygon", "optimism",
              "bsc", "avalanche"] }

/-- The inner `item` object of one CoinGecko trending entry; its four
fields are exactly what the tool surfaces per coin (server.py lines
352-359). -/
structure TrendingCoin where
  name : Option String := none
  symbol : Option String := none
  market_cap_rank : Option ℤ := none
  price_btc : Option ℚ := none
deriving DecidableEq, Repr

/-- One entry of the `search/trending` coins list. -/
structure TrendingItem where
  item : Option TrendingCoin := none
deriving DecidableEq, Repr

/-- The parsed JSON body of the CoinGecko `search/trending` endpoint. -/
structure TrendingResponse where
  coins : List TrendingItem := []
deriving DecidableEq, Repr

/-- `CoinGeckoClient.get_trending` (coingecko.py lines 229-237): one GET,
`data.get("coins", [])`. -/
def get_trending (upstream : Except ApiFailure TrendingResponse) :
    Except ClientError (List TrendingItem) :=
  match upstream with
  | .error f => .error (.http f)
  | .ok data => .ok data.coins

/-- The `trending_coins` tool (server.py lines 340-364): the first ten
entries, each projected to its `item` object (empty when absent). -/
def trending_coins_tool (upstream : Except ApiFailure TrendingResponse) :
    ToolResult (List TrendingCoin) :=
  match get_trending upstream with
  | .error e => .err (plain_error_message e)
  | .ok trending => .ok ((trending.take 10).map (fun it => it.item.getD {}))

/-! ## Derived decompositions and concrete sample inputs

`other_rules_score` regroups the nine non-tax addends of `raw_score` (used
to state what the two tax rules add on top of the rest); the records below
are concrete inputs for the closed theorems. -/

/-- The nine non-tax addends of `raw_score`, in source order. -/
def other_rules_score (t : TokenSecurity) : ℤ :=
    (if t.is_honeypot then 100 else 0)
  + (if t.is_mintable then 20 else 0)
  + (if t.can_take_back_ownership then 25 else 0)
  + (if t.owner_change_balance then 30 else 0)
  + (if t.hidden_owner then 15 else 0)
  + (if t.is_blacklisted then 10 else 0)
  + (if t.transfer_pausable then 15 else 0)
  + (if !t.is_open_source then 20 else 0)
  + (if t.is_proxy then 10 else 0)

/-- A token with a 15.9% buy tax and no other risk indicator. -/
def c1_token : TokenSecurity :=
  { address := "0xtoken", chain := "eth", buy_tax := 159/1000 }

/-- A token with a 20% buy tax and no other risk indicator. -/
def c1w_token : TokenSecurity :=
  { address := "0xtoken", chain := "eth", buy_tax := 2/10 }

/-- The first pool of the spec's yield-filtering example. -/
def base_stable_pool : RawPool :=
  { pool := some "p1", chain := some "Base", project := some "aave-v3",
    symbol := some "USDC", tvlUsd := some 2000000, apy := some 8,
    stablecoin := some true }

/-- The second pool of the spec's yield-filtering example. -/
def base_degen_pool : RawPool :=
  { pool := some "p2", chain := some "Base", project := some "degen",
    symbol := some "DGN", tvlUsd := some 500, apy := some 50,
    stablecoin := some false }

/-- A matching pool with a low APY, listed first. -/
def low_apy_pool : RawPool :=
  { pool := some "lo", chain := some "Base", tvlUsd := some 3000000,
    apy := some 5, stablecoin := some true }

/-- A matching pool with a high APY, listed second. -/
def high_apy_pool : RawPool :=
  { pool := some "hi", chain := some "Base", tvlUsd := some 4000000,
    apy := some 50, stablecoin := some true }

/-- The `get_pools` arguments with `limit := 1` and no filters. -/
def limit_one_args : PoolsArgs := { limit := 1 }

/-- The spec example's arguments: `min_tvl=1_000_000, stablecoin_only=true`. -/
def spec_example_args : PoolsArgs := { min_tvl := 1000000, stablecoin_only := true }

/-- The `get_pools` arguments naming a chain alias absent from the DefiLlama
table. -/
def unknown_chain_args : PoolsArgs := { chain := some "doesnotexist" }

/-- A parameter mapping, and the same mapping inserted in reverse order. -/
def kv_params1 : List (String × JPrim) := [("b", .str "1"), ("a", .str "2")]

/-- See `kv_params1`. -/
def kv_params2 : List (String × JPrim) := [("a", .str "2"), ("b", .str "1")]

/-- A GoPlus response body with every field absent. -/
def empty_goplus_response : GoPlusResponse := {}


/-! ## Theorems -/

theorem ite_nonneg (c : Prop) [Decidable c] (v : ℤ) (h : c → 0 ≤ v) :
    0 ≤ if c then v else 0 := by
  split
  · exact h ‹c›
  · exact le_refl 0

theorem ite_pos_eq_zero_iff (c : Prop) [Decidable c] (v : ℤ) (h : c → 0 < v) :
    ((if c then v else 0) = 0) ↔ ¬c := by
  constructor
  · intro h0 hc
    rw [if_pos hc] at h0
    exact absurd h0 (ne_of_gt (h hc))
  · intro hc
    rw [if_neg hc]

theorem ite_singleton_eq_nil_iff {α : Type} (c : Prop) [Decidable c] (s : α) :
    ((if c then [s] else []) = ([] : List α)) ↔ ¬c := by
  split <;> simp_all

theorem mem_ite_singleton {α : Type} (x a : α) (c : Prop) [Decidable c] :
    (x ∈ if c then [a] else []) ↔ c ∧ x = a := by
  split <;> simp_all

theorem tax_term_pos {q : ℚ} (h : q > 1/10) : 0 < min 30 ⌊q * 100⌋ := by
  have h10 : (10:ℤ) ≤ ⌊q * 100⌋ := by
    rw [Int.le_floor]
    push_cast
    linarith
  omega

theorem raw_score_nonneg (t : TokenSecurity) : 0 ≤ raw_score t := by
  have hb := ite_nonneg (t.buy_tax > 1/10) (min 30 ⌊t.buy_tax * 100⌋)
    (fun h => le_of_lt (tax_term_pos h))
  have hs := ite_nonneg (t.sell_tax > 1/10) (min 30 ⌊t.sell_tax * 100⌋)
    (fun h => le_of_lt (tax_term_pos h))
  have h1 := ite_nonneg (t.is_honeypot = true) (100:ℤ) (fun _ => by norm_num)
  have h4 := ite_nonneg (t.is_mintable = true) (20:ℤ) (fun _ => by norm_num)
  have h5 := ite_nonneg (t.can_take_back_ownership = true) (25:ℤ) (fun _ => by norm_num)
  have h6 := ite_nonneg (t.owner_change_balance = true) (30:ℤ) (fun _ => by norm_num)
  have h7 := ite_nonneg (t.hidden_owner = true) (15:ℤ) (fun _ => by norm_num)
  have h8 := ite_nonneg (t.is_blacklisted = true) (10:ℤ) (fun _ => by norm_num)
  have h9 := ite_nonneg (t.transfer_pausable = true) (15:ℤ) (fun _ => by norm_num)
  have h10 := ite_nonneg ((!t.is_open_source) = true) (20:ℤ) (fun _ => by norm_num)
  have h11 := ite_nonneg (t.is_proxy = true) (10:ℤ) (fun _ => by norm_num)
  unfold raw_score
  linarith

theorem sum_eleven_eq_zero {a1 a2 a3 a4 a5 a6 a7 a8 a9 a10 a11 : ℤ}
    (h1 : 0 ≤ a1) (h2 : 0 ≤ a2) (h3 : 0 ≤ a3) (h4 : 0 ≤ a4) (h5 : 0 ≤ a5)
    (h6 : 0 ≤ a6) (h7 : 0 ≤ a7) (h8 : 0 ≤ a8) (h9 : 0 ≤ a9) (h10 : 0 ≤ a10)
    (h11 : 0 ≤ a11) :
    a1 + a2 + a3 + a4 + a5 + a6 + a7 + a8 + a9 + a10 + a11 = 0 ↔
      a1 = 0 ∧ a2 = 0 ∧ a3 = 0 ∧ a4 = 0 ∧ a5 = 0 ∧ a6 = 0 ∧ a7 = 0 ∧ a8 = 0 ∧
      a9 = 0 ∧ a10 = 0 ∧ a11 = 0 := by
  omega

theorem raw_score_eq_zero_iff (t : TokenSecurity) :
    raw_score t = 0 ↔
      (t.is_honeypot = false ∧ ¬(t.buy_tax > 1/10) ∧ ¬(t.sell_tax > 1/10) ∧
       t.is_mintable = false ∧ t.can_take_back_ownership = false ∧
       t.owner_change_balance = false ∧ t.hidden_owner = false ∧
       t.is_blacklisted = false ∧ t.transfer_pausable = false ∧
       t.is_open_source = true ∧ t.is_proxy = false) := by
  have hb := ite_nonneg (t.buy_tax > 1/10) (min 30 ⌊t.buy_tax * 100⌋)
    (fun h => le_of_lt (tax_term_pos h))
  have hs := ite_nonneg (t.sell_tax > 1/10) (min 30 ⌊t.sell_tax * 100⌋)
    (fun h => le_of_lt (tax_term_pos h))
  have h1 := ite_nonneg (t.is_honeypot = true) (100:ℤ) (fun _ => by norm_num)
  have h4 := ite_nonneg (t.is_mintable = true) (20:ℤ) (fun _ => by norm_num)
  have h5 := ite_nonneg (t.can_take_back_ownership = true) (25:ℤ) (fun _ => by norm_num)
  have h6 := ite_nonneg (t.owner_change_balance = true) (30:ℤ) (fun _ => by norm_num)
  have h7 := ite_nonneg (t.hidden_owner = true) (15:ℤ) (fun _ => by norm_num)
  have h8 := ite_nonneg (t.is_blacklisted = true) (10:ℤ) (fun _ => by norm_num)
  have h9 := ite_nonneg (t.transfer_pausable = true) (15:ℤ) (fun _ => by norm_num)
  have h10 := ite_nonneg ((!t.is_open_source) = true) (20:ℤ) (fun _ => by norm_num)
  have h11 := ite_nonneg (t.is_proxy = true) (10:ℤ) (fun _ => by norm_num)
  unfold raw_score
  rw [sum_eleven_eq_zero h1 hb hs h4 h5 h6 h7 h8 h9 h10 h11]
  rw [ite_pos_eq_zero_iff _ _ (fun _ => by norm_num : t.is_honeypot = true → (0:ℤ) < 100)]
  rw [ite_pos_eq_zero_iff _ _ (fun h => tax_term_pos h)]
  rw [ite_pos_eq_zero_iff _ _ (fun h => tax_term_pos h)]
  rw [ite_pos_eq_zero_iff _ _ (fun _ => by norm_num : t.is_mintable = true → (0:ℤ) < 20)]
  rw [ite_pos_eq_zero_iff _ _
    (fun _ => by norm_num : t.can_take_back_ownership = true → (0:ℤ) < 25)]
  rw [ite_pos_eq_zero_iff _ _
    (fun _ => by norm_num : t.owner_change_balance = true → (0:ℤ) < 30)]
  rw [ite_pos_eq_zero_iff _ _ (fun _ => by norm_num : t.hidden_owner = true → (0:ℤ) < 15)]
  rw [ite_pos_eq_zero_iff _ _ (fun _ => by norm_num : t.is_blacklisted = true → (0:ℤ) < 10)]
  rw [ite_pos_eq_zero_iff _ _
    (fun _ => by norm_num : t.transfer_pausable = true → (0:ℤ) < 15)]
  rw [ite_pos_eq_zero_iff _ _ (fun _ => by norm_num : (!t.is_open_source) = true → (0:ℤ) < 20)]
  rw [ite_pos_eq_zero_iff _ _ (fun _ => by norm_num : t.is_proxy = true → (0:ℤ) < 10)]
  simp [Bool.not_eq_true]

theorem risk_factors_of_eq_nil_iff (t : TokenSecurity) :
    risk_factors_of t = [] ↔
      (t.is_honeypot = false ∧ ¬(t.buy_tax > 1/10) ∧ ¬(t.sell_tax > 1/10) ∧
       t.is_mintable = false ∧ t.can_take_back_ownership = false ∧
       t.owner_change_balance = false ∧ t.hidden_owner = false ∧
       t.is_blacklisted = false ∧ t.transfer_pausable = false ∧
       t.is_open_source = true ∧ t.is_proxy = false) := by
  unfold risk_factors_of
  simp only [List.append_eq_nil, ite_singleton_eq_nil_iff, Bool.not_eq_true,
    Bool.not_eq_false']
  tauto

theorem risk_level_of_eq_safe_iff (s : ℤ) :
    risk_level_of s = RiskLevel.safe ↔ s ≤ 0 := by
  unfold risk_level_of
  split_ifs with h1 h2 h3 h4 <;> simp <;> omega

theorem risk_level_of_min_100 (s : ℤ) :
    risk_level_of (min 100 s) = risk_level_of s := by
  rcases le_total s 100 with h | h
  · rw [min_eq_right h]
  · rw [min_eq_left h]
    unfold risk_level_of
    rw [if_pos (by norm_num : (100:ℤ) ≥ 80), if_pos (by omega : s ≥ 80)]

/-- Claim C4: for every token security record the computed risk score lies in
[0, 100], and the risk level follows the fixed thresholds on that score:
at least 80 critical, at least 50 high, at least 25 medium, above 0 low and
exactly 0 safe. -/
theorem c4_score_clamped_and_level_thresholds (t : TokenSecurity) :
    0 ≤ (calculate_risk t).risk_score ∧ (calculate_risk t).risk_score ≤ 100 ∧
    (calculate_risk t).risk_level =
      (if (calculate_risk t).risk_score ≥ 80 then RiskLevel.critical
       else if (calculate_risk t).risk_score ≥ 50 then RiskLevel.high
       else if (calculate_risk t).risk_score ≥ 25 then RiskLevel.medium
       else if (calculate_risk t).risk_score > 0 then RiskLevel.low
       else RiskLevel.safe) := by
  have h0 := raw_score_nonneg t
  refine ⟨?_, ?_, ?_⟩
  · exact le_min (by norm_num) h0
  · exact min_le_left _ _
  · show risk_level_of (raw_score t) = risk_level_of (min 100 (raw_score t))
    exact (risk_level_of_min_100 (raw_score t)).symm

/-- Claim C10: after risk calculation the score lies in [0, 100], and the
score being zero, the factor list being empty and the level being safe are
equivalent. -/
theorem c10_zero_score_factors_level_equiv (t : TokenSecurity) :
    0 ≤ (calculate_risk t).risk_score ∧ (calculate_risk t).risk_score ≤ 100 ∧
    ((calculate_risk t).risk_score = 0 ↔ (calculate_risk t).risk_factors = []) ∧
    ((calculate_risk t).risk_score = 0 ↔
      (calculate_risk t).risk_level = RiskLevel.safe) := by
  have h0 := raw_score_nonneg t
  have hscore0 : (calculate_risk t).risk_score = 0 ↔ raw_score t = 0 := by
    show min 100 (raw_score t) = 0 ↔ raw_score t = 0
    omega
  refine ⟨le_min (by norm_num) h0, min_le_left _ _, ?_, ?_⟩
  · rw [hscore0]
    exact (raw_score_eq_zero_iff t).trans (risk_factors_of_eq_nil_iff t).symm
  · rw [hscore0]
    show _ ↔ risk_level_of (raw_score t) = RiskLevel.safe
    rw [risk_level_of_eq_safe_iff]
    omega


theorem get3_of_append (pre x : String) (h : 3 < pre.data.length) :
    ((pre ++ x).data)[3]? = (pre.data)[3]? := by
  rw [String.data_append]
  exact List.getElem?_append_left h

theorem string_ne_of_get3 {a b : String} (h : (a.data)[3]? ≠ (b.data)[3]?) :
    a ≠ b :=
  fun he => h (by rw [he])

theorem buy_tax_factor_decomp (t : TokenSecurity) :
    buy_tax_factor t = "⚠️ 买入税: " ++ (formatPct1 (t.buy_tax * 100) ++ "%") := by
  unfold buy_tax_factor
  rw [String.append_assoc]

theorem sell_tax_factor_decomp (t : TokenSecurity) :
    sell_tax_factor t = "⚠️ 卖出税: " ++ (formatPct1 (t.sell_tax * 100) ++ "%") := by
  unfold sell_tax_factor
  rw [String.append_assoc]

theorem buy_tax_factor_get3 (t : TokenSecurity) :
    ((buy_tax_factor t).data)[3]? = some '买' := by
  rw [buy_tax_factor_decomp, get3_of_append _ _ (by decide)]
  decide

theorem sell_tax_factor_get3 (t : TokenSecurity) :
    ((sell_tax_factor t).data)[3]? = some '卖' := by
  rw [sell_tax_factor_decomp, get3_of_append _ _ (by decide)]
  decide

theorem buy_tax_factor_ne (t : TokenSecurity) (s : String)
    (h : (s.data)[3]? ≠ some '买') : buy_tax_factor t ≠ s :=
  string_ne_of_get3 (by rw [buy_tax_factor_get3]; exact fun he => h he.symm)

theorem sell_tax_factor_ne (t : TokenSecurity) (s : String)
    (h : (s.data)[3]? ≠ some '卖') : sell_tax_factor t ≠ s :=
  string_ne_of_get3 (by rw [sell_tax_factor_get3]; exact fun he => h he.symm)

theorem buy_tax_factor_ne_sell (t u : TokenSecurity) :
    buy_tax_factor t ≠ sell_tax_factor u :=
  string_ne_of_get3 (by rw [buy_tax_factor_get3, sell_tax_factor_get3]; decide)

theorem sell_tax_factor_ne_buy (t u : TokenSecurity) :
    sell_tax_factor t ≠ buy_tax_factor u :=
  (buy_tax_factor_ne_sell u t).symm

/-- Claim C1 counterexample: for a record whose buy tax is 15.9% (and no
other indicator set) the code's score is min(30, int(15.9)) = 15, while the
claim's formula min(30, round(15.9)) gives 16. -/
theorem c1_tax_points_round_counterexample :
    c1_token.buy_tax > 1/10 ∧
    (calculate_risk c1_token).risk_score = 15 ∧
    min 30 (round (c1_token.buy_tax * 100)) = 16 := by
  refine ⟨by norm_num [c1_token], ?_, ?_⟩
  · norm_num [calculate_risk, raw_score, c1_token]
  · norm_num [c1_token, round_eq, min_def]

/-- Claim C1 (amended): a buy tax above 10% adds min(30, ⌊tax·100⌋) — the
floor (Python `int` truncation), not the rounding, of tax·100 — to the score
and emits the buy-tax flag, and symmetrically for the sell tax; a tax at or
below 10% adds nothing and emits no flag. -/
theorem c1_tax_rules_floor_and_flags (t : TokenSecurity) :
    (calculate_risk t).risk_score =
      min 100 (other_rules_score t
        + (if t.buy_tax > 1/10 then min 30 ⌊t.buy_tax * 100⌋ else 0)
        + (if t.sell_tax > 1/10 then min 30 ⌊t.sell_tax * 100⌋ else 0)) ∧
    (buy_tax_factor t ∈ (calculate_risk t).risk_factors ↔ t.buy_tax > 1/10) ∧
    (sell_tax_factor t ∈ (calculate_risk t).risk_factors ↔ t.sell_tax > 1/10) := by
  refine ⟨?_, ?_, ?_⟩
  · show min 100 (raw_score t) = _
    unfold raw_score other_rules_score
    congr 1
    ring
  · show buy_tax_factor t ∈ risk_factors_of t ↔ _
    unfold risk_factors_of
    simp only [List.mem_append, mem_ite_singleton,
      buy_tax_factor_ne t "🚨 蜜罐合约 - 无法卖出!" (by decide),
      buy_tax_factor_ne_sell t t,
      buy_tax_factor_ne t "⚠️ 可增发" (by decide),
      buy_tax_factor_ne t "🚨 可收回所有权" (by decide),
      buy_tax_factor_ne t "🚨 Owner可修改余额" (by decide),
      buy_tax_factor_ne t "⚠️ 隐藏的Owner" (by decide),
      buy_tax_factor_ne t "⚠️ 有黑名单功能" (by decide),
      buy_tax_factor_ne t "⚠️ 可暂停转账" (by decide),
      buy_tax_factor_ne t "⚠️ 代码未开源" (by decide),
      buy_tax_factor_ne t "ℹ️ 代理合约" (by decide)]
    simp
  · show sell_tax_factor t ∈ risk_factors_of t ↔ _
    unfold risk_factors_of
    simp only [List.mem_append, mem_ite_singleton,
      sell_tax_factor_ne t "🚨 蜜罐合约 - 无法卖出!" (by decide),
      sell_tax_factor_ne_buy t t,
      sell_tax_factor_ne t "⚠️ 可增发" (by decide),
      sell_tax_factor_ne t "🚨 可收回所有权" (by decide),
      sell_tax_factor_ne t "🚨 Owner可修改余额" (by decide),
      sell_tax_factor_ne t "⚠️ 隐藏的Owner" (by decide),
      sell_tax_factor_ne t "⚠️ 有黑名单功能" (by decide),
      sell_tax_factor_ne t "⚠️ 可暂停转账" (by decide),
      sell_tax_factor_ne t "⚠️ 代码未开源" (by decide),
      sell_tax_factor_ne t "ℹ️ 代理合约" (by decide)]
    simp

/-- Witness for the amended claim C1 at a concrete 20% buy tax. -/
theorem c1_tax_rules_floor_and_flags_witness :
    (calculate_risk c1w_token).risk_score = 20 ∧
    buy_tax_factor c1w_token ∈ (calculate_risk c1w_token).risk_factors := by
  have h := c1_tax_rules_floor_and_flags c1w_token
  refine ⟨?_, h.2.1.mpr (by norm_num [c1w_token])⟩
  rw [h.1]
  norm_num [c1w_token, other_rules_score, min_def]


theorem get_pools_loop_eq (keep : RawPool → Bool) (limit : ℕ) (pools : List RawPool) :
    ∀ acc : List DefiPool, acc.length < limit →
      get_pools_loop keep limit pools acc =
        acc ++ ((pools.filter keep).take (limit - acc.length)).map to_defi_pool := by
  induction pools with
  | nil =>
      intro acc _
      simp [get_pools_loop]
  | cons p ps ih =>
      intro acc hlt
      by_cases hk : keep p = true
      · simp only [get_pools_loop, if_pos hk]
        by_cases hstop : limit ≤ (acc ++ [to_defi_pool p]).length
        · rw [if_pos hstop]
          have h1 : limit - acc.length = 1 := by
            simp only [List.length_append, List.length_cons, List.length_nil] at hstop
            omega
          rw [List.filter_cons_of_pos hk, h1]
          simp
        · rw [if_neg hstop]
          have hlen : (acc ++ [to_defi_pool p]).length < limit := by omega
          rw [ih _ hlen, List.filter_cons_of_pos hk]
          have h2 : limit - acc.length = (limit - (acc ++ [to_defi_pool p]).length) + 1 := by
            simp only [List.length_append, List.length_cons, List.length_nil]
            simp only [List.length_append, List.length_cons, List.length_nil] at hstop
            omega
          rw [h2, List.take_succ_cons]
          simp
      · simp only [get_pools_loop, if_neg hk]
        rw [ih _ hlt, List.filter_cons_of_neg (by simpa using hk)]

/-- Claim C3: the `get_pools` accumulation stops as soon as `limit` pools
have matched (the first `limit` matches in source iteration order), and only
the retained subset is then sorted descending by APY; consequently the
output is sorted descending by APY, yet need not be the global top-N by APY,
as the concrete two-pool run with `limit = 1` shows. -/
theorem c3_limit_truncation_before_apy_sort :
    (∀ (a : PoolsArgs) (pools : List RawPool), 1 ≤ a.limit →
      get_pools a pools =
        sort_by_apy_desc
          (((pools.filter (get_pools_filter a)).take a.limit).map to_defi_pool)) ∧
    (∀ (a : PoolsArgs) (pools : List RawPool),
      List.Sorted apy_desc (get_pools a pools)) ∧
    get_pools limit_one_args [low_apy_pool, high_apy_pool] =
      [to_defi_pool low_apy_pool] ∧
    get_pools_filter limit_one_args high_apy_pool = true ∧
    (to_defi_pool low_apy_pool).apy < (to_defi_pool high_apy_pool).apy := by
  refine ⟨?_, ?_, ?_, ?_, ?_⟩
  · intro a pools h
    unfold get_pools
    rw [get_pools_loop_eq _ _ _ [] (by simpa using h)]
    simp
  · intro a pools
    exact List.sorted_insertionSort apy_desc _
  · decide
  · decide
  · decide

/-- Witness for C3, discharging its `1 ≤ limit` hypothesis at the default
arguments and a one-pool list. -/
theorem c3_limit_truncation_before_apy_sort_witness :
    get_pools { } [base_stable_pool] =
      sort_by_apy_desc
        ((((([base_stable_pool] : List RawPool).filter
            (get_pools_filter { })).take (PoolsArgs.limit { })).map to_defi_pool)) :=
  c3_limit_truncation_before_apy_sort.1 { } [base_stable_pool] (by decide)


/-- Claim C5: the filter of the pool listing keeps a pool iff all guards
hold — chain equality against the resolved filter (when one is present),
case-insensitive project equality (when a non-empty project is given),
TVL at least `min_tvl`, APY within `[min_apy, max_apy]` (absent TVL/APY
read as zero), the stablecoin flag (when requested) and single exposure
(when requested) — together with the spec's literal two-pool example. -/
theorem c5_pool_filter_conjunction :
    (∀ (cf pr : Option String) (min_tvl min_apy max_apy : ℚ)
        (so se : Bool) (p : RawPool),
      pool_matches cf pr min_tvl min_apy max_apy so se p = true ↔
        ((∀ c, cf = some c → p.chain = some c) ∧
         (∀ s, pr = some s → s ≠ "" →
           py_lower (p.project.getD "") = py_lower s) ∧
         min_tvl ≤ p.tvlUsd.getD 0 ∧
         min_apy ≤ p.apy.getD 0 ∧ p.apy.getD 0 ≤ max_apy ∧
         (so = true → p.stablecoin.getD false = true) ∧
         (se = true → p.exposure = some "single"))) ∧
    get_pools spec_example_args [base_stable_pool, base_degen_pool] =
      [to_defi_pool base_stable_pool] := by
  refine ⟨?_, by decide⟩
  intro cf pr mt ma Ma so se p
  unfold pool_matches pool_tvl pool_apy
  rcases cf with _ | c <;> rcases pr with _ | s <;> rcases so <;> rcases se <;>
    (try split_ifs with hs) <;>
    simp_all [beq_iff_eq, ge_iff_le] <;>
    tauto


/-- Witness for C5, instantiating the filter equivalence at the spec
example's first pool. -/
theorem c5_pool_filter_conjunction_witness :
    pool_matches (some "Base") none 1000000 0 10000 true false
      base_stable_pool = true :=
  (c5_pool_filter_conjunction.1 (some "Base") none 1000000 0 10000 true false
      base_stable_pool).mpr
    (by
      refine ⟨?_, ?_, ?_, ?_, ?_, ?_, ?_⟩
      · intro c hc
        cases hc
        decide
      · intro s hs
        cases hs
      · decide
      · decide
      · decide
      · intro _
        decide
      · intro h
        exact Bool.noConfusion h)

/-- Claim C6: immediately after `set(k, v, ttl)` at time `t0`, `get(k)` at
any time strictly before the stored expiry `t0 + ttl` returns `v`; at or
past the expiry it returns absent and deletes the entry. -/
theorem c6_cache_roundtrip {α : Type} (c : Cache α) (k : String) (v : α)
    (ttl t0 t : ℚ) :
    (t < t0 + ttl → (cache_get (cache_set c k v ttl t0) k t).1 = some v) ∧
    (t0 + ttl ≤ t →
      (cache_get (cache_set c k v ttl t0) k t).1 = none ∧
      ((cache_get (cache_set c k v ttl t0) k t).2) k = none) := by
  unfold cache_get cache_set
  constructor
  · intro h
    simp [h]
  · intro h
    have h2 : ¬ t < t0 + ttl := not_lt.mpr h
    simp [h2]

/-- Witness for C6 at a concrete key, value and simulated clock. -/
theorem c6_cache_roundtrip_witness :
    ((1:ℚ) < 0 + 60 ∧
      (cache_get (cache_set (cache_empty ℕ) "k" 7 60 0) "k" 1).1 = some 7) ∧
    ((0:ℚ) + 60 ≤ 60 ∧
      (cache_get (cache_set (cache_empty ℕ) "k" 7 60 0) "k" 60).1 = none ∧
      ((cache_get (cache_set (cache_empty ℕ) "k" 7 60 0) "k" 60).2) "k" = none) := by
  constructor
  · exact ⟨by norm_num,
      (c6_cache_roundtrip (cache_empty ℕ) "k" 7 60 0 1).1 (by norm_num)⟩
  · exact ⟨by norm_num,
      (c6_cache_roundtrip (cache_empty ℕ) "k" 7 60 0 60).2 (by norm_num)⟩

theorem sorted_key_lt {V : Type} {l : List (String × V)}
    (hs : List.Sorted key_le l) (hn : (l.map Prod.fst).Nodup) :
    List.Sorted key_lt l := by
  have hne : List.Pairwise (fun a b : String × V => a.1 ≠ b.1) l :=
    List.pairwise_map.mp hn
  exact (hs.and hne).imp (fun h => lt_of_le_of_ne h.1 h.2)

theorem sort_params_eq_of_perm {p1 p2 : List (String × JPrim)} (hp : p1.Perm p2)
    (hn : (p1.map Prod.fst).Nodup) : sort_params p1 = sort_params p2 := by
  have h1 : (sort_params p1).Perm p1 := List.perm_insertionSort key_le p1
  have h2 : (sort_params p2).Perm p2 := List.perm_insertionSort key_le p2
  have hp12 : (sort_params p1).Perm (sort_params p2) := (h1.trans hp).trans h2.symm
  have hn1 : ((sort_params p1).map Prod.fst).Nodup := ((h1.map Prod.fst).symm).nodup hn
  have hn2 : ((sort_params p2).map Prod.fst).Nodup :=
    ((h2.map Prod.fst).symm).nodup ((hp.map Prod.fst).nodup hn)
  have hs1 : List.Sorted key_le (sort_params p1) := List.sorted_insertionSort key_le p1
  have hs2 : List.Sorted key_le (sort_params p2) := List.sorted_insertionSort key_le p2
  exact List.eq_of_perm_of_sorted hp12 (sorted_key_lt hs1 hn1) (sorted_key_lt hs2 hn2)

/-- Claim C7: `make_key` is a pure function of the request identity — for
any digest function (in particular md5), the same URL with the same
parameter mapping yields the same key regardless of the mapping's insertion
order. -/
theorem c7_make_key_order_independent (digest : String → String) (url : String)
    (p1 p2 : List (String × JPrim)) (hp : p1.Perm p2)
    (hn : (p1.map Prod.fst).Nodup) :
    make_key digest url (some p1) = make_key digest url (some p2) := by
  have hd : dump_params (some p1) = dump_params (some p2) := by
    simp only [dump_params]
    rw [sort_params_eq_of_perm hp hn]
  unfold make_key make_key_payload
  rw [hd]

/-- Witness for C7 on a two-entry mapping inserted in both orders. -/
theorem c7_make_key_order_independent_witness :
    kv_params1.Perm kv_params2 ∧ (kv_params1.map Prod.fst).Nodup ∧
    make_key id "https://api" (some kv_params1) =
      make_key id "https://api" (some kv_params2) :=
  ⟨by decide, by decide,
    c7_make_key_order_independent id "https://api" kv_params1 kv_params2
      (by decide) (by decide)⟩

/-- Claim C8: `BaseClient.get` (on a cache miss) fails with `RateLimited`
exactly when the upstream status is 429, with the status-carrying
`UpstreamError` for every other non-2xx status, and with the generic
timeout `APIError` when no response arrives; a 429 is never reported as an
`UpstreamError`. -/
theorem c8_base_get_error_mapping {β : Type} (digest : String → String)
    (c : Cache β) (now cache_ttl : ℚ) (url : String)
    (params : Option (List (String × JPrim))) (use_cache : Bool)
    (outcome : FetchOutcome β)
    (hmiss : use_cache = true →
      (cache_get c (make_key digest url params) now).1 = none) :
    (base_get digest c now cache_ttl url params use_cache outcome =
        .error .rateLimited ↔ ∃ body, outcome = .response 429 body) ∧
    (∀ status body, outcome = .response status body →
      ¬(200 ≤ status ∧ status ≤ 299) → status ≠ 429 →
      base_get digest c now cache_ttl url params use_cache outcome =
        .error (.httpStatus status)) ∧
    (outcome = .timeout →
      base_get digest c now cache_ttl url params use_cache outcome =
        .error .timeout) ∧
    (∀ body s, outcome = .response 429 body →
      base_get digest c now cache_ttl url params use_cache outcome ≠
        .error (.httpStatus s)) := by
  have hl : (if use_cache then cache_get c (make_key digest url params) now
      else (none, c)).1 = none := by
    rcases use_cache
    · rfl
    · simpa using hmiss rfl
  refine ⟨?_, ?_, ?_, ?_⟩
  · rcases outcome with ⟨status, body⟩ | _
    · by_cases h429 : status = 429
      · subst h429
        simp [base_get, hl]
      · constructor
        · intro h
          exfalso
          by_cases h2xx : 200 ≤ status ∧ status ≤ 299 <;>
            simp [base_get, hl, h429, h2xx] at h
        · rintro ⟨body', hb⟩
          injection hb with hs hb2
          exact absurd hs h429
    · simp [base_get, hl]
  · intro status body heq hne h429
    subst heq
    simp [base_get, hl, h429, hne]
  · intro heq
    subst heq
    simp [base_get, hl]
  · rintro body s rfl
    simp [base_get, hl]

/-- Witness for C8: a 429 response with caching disabled maps to
`RateLimited`. -/
theorem c8_base_get_error_mapping_witness :
    base_get id (cache_empty JPrim) 0 60 "https://api" none false
      (.response 429 .null) = .error .rateLimited :=
  (c8_base_get_error_mapping id (cache_empty JPrim) 0 60 "https://api" none false
    (.response 429 .null) (fun h => Bool.noConfusion h)).1.mpr ⟨.null, rfl⟩


/-- Claim C2 counterexample: for the alias "doesnotexist", absent from the
DefiLlama table, the pool listing does not fail with an unsupported-chain
error — it returns normally, and even returns pools of other chains,
because the unresolved chain filter is silently dropped. -/
theorem c2_defillama_no_unsupported_chain_failure :
    get_defillama_chain "doesnotexist" = none ∧
    get_pools unknown_chain_args [base_stable_pool] =
      [to_defi_pool base_stable_pool] :=
  ⟨by decide, by decide⟩

/-- Claim C2 (amended): the GoPlus security scan, the CoinGecko price
lookup and both chain resolutions of the Li.Fi bridge quote fail with the
unsupported-chain `ValueError` whenever the alias is absent from the
respective table, independently of the upstream response (so before any
upstream request); the DefiLlama pool listing never fails on an unknown
alias — it behaves exactly as if no chain filter had been given (after
fetching all pools upstream). -/
theorem c2_unsupported_chain_failures :
    (∀ chain address upstream, get_goplus_chain_id chain = none →
      check_token_security chain address upstream =
        .error (.unsupported ("Unsupported chain: " ++ chain ++
          ". Supported: ethereum, bsc, base, arbitrum, polygon, solana, etc."))) ∧
    (∀ chain address upstream, get_coingecko_platform chain = none →
      get_token_price chain address upstream =
        .error (.unsupported ("Unsupported chain: " ++ chain ++
          ". Supported: ethereum, bsc, base, arbitrum, polygon, solana, etc."))) ∧
    (∀ fc tc ft tt2 am fa upstream, get_lifi_chain_id fc = none →
      get_quote fc tc ft tt2 am fa upstream =
        .error (.unsupported ("Unsupported source chain: " ++ fc))) ∧
    (∀ fc tc ft tt2 am fa upstream fid, get_lifi_chain_id fc = some fid →
      get_lifi_chain_id tc = none →
      get_quote fc tc ft tt2 am fa upstream =
        .error (.unsupported ("Unsupported destination chain: " ++ tc))) ∧
    (∀ (a : PoolsArgs) (c : String) (pools : List RawPool), a.chain = some c →
      c ≠ "" → get_defillama_chain c = none →
      get_pools a pools = get_pools { a with chain := none } pools) := by
  refine ⟨?_, ?_, ?_, ?_, ?_⟩
  · intro chain address upstream h
    unfold check_token_security
    rw [h]
  · intro chain address upstream h
    unfold get_token_price
    rw [h]
  · intro fc tc ft tt2 am fa upstream h
    unfold get_quote
    rw [h]
  · intro fc tc ft tt2 am fa upstream fid h1 h2
    unfold get_quote
    rw [h1, h2]
  · intro a c pools hc hne hl
    have hr : resolved_chain_filter a.chain = none := by
      rw [hc]
      simp [resolved_chain_filter, hne, hl]
    unfold get_pools get_pools_filter
    rw [hr]
    simp [resolved_chain_filter]

/-- Witness for the amended claim C2 at the alias "doesnotexist". -/
theorem c2_unsupported_chain_failures_witness :
    check_token_security "doesnotexist" "0xAbC" empty_goplus_response =
      .error (.unsupported ("Unsupported chain: " ++ "doesnotexist" ++
        ". Supported: ethereum, bsc, base, arbitrum, polygon, solana, etc.")) ∧
    get_quote "doesnotexist" "base" "USDC" "USDC" "1000000000" "0xme" {} =
      .error (.unsupported ("Unsupported source chain: " ++ "doesnotexist")) :=
  ⟨c2_unsupported_chain_failures.1 "doesnotexist" "0xAbC" empty_goplus_response
      (by decide),
   c2_unsupported_chain_failures.2.2.1 "doesnotexist" "base" "USDC" "USDC"
      "1000000000" "0xme" {} (by decide)⟩

/-- Claim C9: for every one of the seven tools, every failure of its
provider-client call surfaces at the tool boundary as an `error`-field
document carrying the handler's message — verbatim `str(e)` for the
single-clause handlers and for `ValueError`, "API error: "-prefixed
otherwise — and never as an exception (each tool embedding is a total
function); in particular, a token_security call for the chain
"doesnotexist" yields an error document whose message contains
"Unsupported chain", and never the success document with risk/details
fields. -/
theorem c9_tool_error_document :
    (∀ chain address upstream e,
      check_token_security chain address upstream = .error e →
      token_security_tool chain address upstream = .err (tool_error_message e)) ∧
    (∀ (chain address : String) (include_market_cap : Bool) upstream e,
      get_token_price chain address upstream = .error e →
      token_price_tool chain address include_market_cap upstream =
        .err (tool_error_message e)) ∧
    (∀ (coin : String) upstream e,
      get_price_by_id coin upstream = .error e →
      crypto_price_tool coin upstream = .err (plain_error_message e)) ∧
    (∀ (chain project : Option String) (min_tvl min_apy max_apy : ℚ)
        (stablecoin_only : Bool) (limit : ℕ) (f : ApiFailure),
      defi_yields_tool chain project min_tvl min_apy max_apy stablecoin_only
        limit (.error f) = .err (failure_message f)) ∧
    (∀ (fc tc ft tt2 am fa : String) upstream e,
      get_quote fc tc ft tt2 am fa upstream = .error e →
      bridge_quote_tool fc tc ft tt2 am fa upstream =
        .err (tool_error_message e)) ∧
    (∀ upstream e, get_supported_chains upstream = .error e →
      supported_chains_tool upstream = .err (plain_error_message e)) ∧
    (∀ upstream e, get_trending upstream = .error e →
      trending_coins_tool upstream = .err (plain_error_message e)) ∧
    (∀ address upstream,
      token_security_tool "doesnotexist" address upstream =
        .err ("Unsupported chain: " ++ "doesnotexist" ++
          ". Supported: ethereum, bsc, base, arbitrum, polygon, solana, etc.")) ∧
    (∃ pre post : String,
      ("Unsupported chain: " ++ "doesnotexist" ++
          ". Supported: ethereum, bsc, base, arbitrum, polygon, solana, etc.") =
        pre ++ "Unsupported chain" ++ post) ∧
    (∀ address upstream doc,
      token_security_tool "doesnotexist" address upstream ≠ .ok doc) := by
  have herr : ∀ chain address upstream e,
      check_token_security chain address upstream = .error e →
      token_security_tool chain address upstream = .err (tool_error_message e) := by
    intro chain address upstream e h
    unfold token_security_tool
    rw [h]
  have hdoes : ∀ (address : String) (upstream : GoPlusResponse),
      token_security_tool "doesnotexist" address upstream =
        .err ("Unsupported chain: " ++ "doesnotexist" ++
          ". Supported: ethereum, bsc, base, arbitrum, polygon, solana, etc.") := by
    intro address upstream
    have h : get_goplus_chain_id "doesnotexist" = none := by decide
    unfold token_security_tool check_token_security
    rw [h]
    rfl
  refine ⟨herr, ?_, ?_, ?_, ?_, ?_, ?_, hdoes, ?_, ?_⟩
  · intro chain address include_market_cap upstream e h
    unfold token_price_tool
    rw [h]
  · intro coin upstream e h
    unfold crypto_price_tool
    rw [h]
  · intro chain project min_tvl min_apy max_apy stablecoin_only limit f
    rfl
  · intro fc tc ft tt2 am fa upstream e h
    unfold bridge_quote_tool
    rw [h]
  · intro upstream e h
    unfold supported_chains_tool
    rw [h]
  · intro upstream e h
    unfold trending_coins_tool
    rw [h]
  · exact ⟨"",
      ": doesnotexist. Supported: ethereum, bsc, base, arbitrum, polygon, solana, etc.",
      by decide⟩
  · intro address upstream doc heq
    rw [hdoes address upstream] at heq
    exact ToolResult.noConfusion heq

/-- Witness for C9, discharging its hypotheses at concrete failing calls of
two different tools. -/
theorem c9_tool_error_document_witness :
    token_security_tool "doesnotexist" "0xAbC" empty_goplus_response =
      .err (tool_error_message (.unsupported ("Unsupported chain: " ++
        "doesnotexist" ++
        ". Supported: ethereum, bsc, base, arbitrum, polygon, solana, etc."))) ∧
    crypto_price_tool "bitcoin" (.error .rateLimited) =
      .err (plain_error_message (.http .rateLimited)) :=
  ⟨c9_tool_error_document.1 "doesnotexist" "0xAbC" empty_goplus_response
      (.unsupported ("Unsupported chain: " ++ "doesnotexist" ++
        ". Supported: ethereum, bsc, base, arbitrum, polygon, solana, etc."))
      rfl,
   c9_tool_error_document.2.2.1 "bitcoin" (.error .rateLimited)
      (.http .rateLimited) rfl⟩

end ToolFi
